import Mathlib

/-!
Verification development for the LINE career check-in bot (`app.py`).

The Python source is shallowly embedded: pure string manipulation becomes
Lean functions on `String` / `List Char`, the sqlite-backed store becomes a
`DB` record with explicit state passing, and the Gemini backend is an
explicit oracle `String → GenOutcome` (one outcome per candidate model,
matching the fact that the fallback loop invokes each model at most once).
`generate_with_fallback` additionally records the trace of models invoked
and the sleeps performed, so that call-count and backoff claims can be
stated about it.
-/

namespace LineBot

/-! ### Python substring test (`p in s`) -/

/-- `needle in haystack` on character lists, as Python's `in` operator:
true iff `n` occurs as a contiguous substring (the empty list occurs in
everything). -/
def listContains : List Char → List Char → Bool
  | [], n => n.isEmpty
  | c :: t, n => n.isPrefixOf (c :: t) || listContains t n

/-- Python's `pat in s` for strings. -/
def strContains (s pat : String) : Bool :=
  listContains s.data pat.data

/-! ### `_extract_retry_seconds` (app.py lines 187-195)

The source runs two `re.search` calls over the error message:
  `r"retry in ([0-9]+(\.[0-9]+)?)s"`  then  `r"retryDelay[^\d]*([0-9]+)s"`.
Both patterns start with a literal, so `re.search` succeeds exactly at a
position where the literal matches and the greedy digit runs are followed
as required; backtracking a greedy `[0-9]+` (resp. `[^\d]*`) can never
rescue a failed match because the character that follows a shortened run
is a digit (resp. non-digit) and so cannot match the required next token.
Hence each pattern reduces to the deterministic matcher below.
`int(float(w))` on a matched group `w = digits[.digits]` truncates to the
integer part, i.e. the value of the leading digit run. -/

/-- Digit run folded to its decimal value (the integer part that
`int(float(...))` keeps). -/
def natOfDigits (ds : List Char) : Nat :=
  ds.foldl (fun n c => 10 * n + (c.toNat - 48)) 0

/-- If `lit` is a prefix of `cs`, the remainder after it. -/
def afterLit (lit cs : List Char) : Option (List Char) :=
  if lit.isPrefixOf cs then some (cs.drop lit.length) else none

/-- Try `retry in ([0-9]+(\.[0-9]+)?)s` anchored at the start of `cs`;
on success return `int(float(group 1))`. -/
def matchRetryInAt (cs : List Char) : Option Nat :=
  match afterLit "retry in ".data cs with
  | none => none
  | some rest =>
    let ds := rest.takeWhile Char.isDigit
    let r2 := rest.dropWhile Char.isDigit
    if ds.isEmpty then none
    else
      match r2 with
      | 's' :: _ => some (natOfDigits ds)
      | '.' :: r3 =>
        let fs := r3.takeWhile Char.isDigit
        let r4 := r3.dropWhile Char.isDigit
        if fs.isEmpty then none
        else
          match r4 with
          | 's' :: _ => some (natOfDigits ds)
          | _ => none
      | _ => none

/-- Try `retryDelay[^\d]*([0-9]+)s` anchored at the start of `cs`. -/
def matchRetryDelayAt (cs : List Char) : Option Nat :=
  match afterLit "retryDelay".data cs with
  | none => none
  | some rest =>
    let r2 := rest.dropWhile (fun c => !c.isDigit)
    let ds := r2.takeWhile Char.isDigit
    let r3 := r2.dropWhile Char.isDigit
    if ds.isEmpty then none
    else
      match r3 with
      | 's' :: _ => some (natOfDigits ds)
      | _ => none

/-- `re.search` driver: try the anchored matcher at every position, left to
right, returning the first success. -/
def searchWith (f : List Char → Option Nat) : List Char → Option Nat
  | [] => f []
  | c :: t =>
    match f (c :: t) with
    | some n => some n
    | none => searchWith f t

/-- `_extract_retry_seconds(msg)`: first pattern wins, else second, else
`None`. -/
def _extract_retry_seconds (msg : String) : Option Nat :=
  match searchWith matchRetryInAt msg.data with
  | some n => some n
  | none => searchWith matchRetryDelayAt msg.data

/-! ### `generate_with_fallback` (app.py lines 197-234) -/

/-- Outcome of one `client.models.generate_content(model, prompt)` call:
it returns a response whose `.text` attribute is a string or `None`, or it
raises `ClientError` (with an optional `status_code` and a message), or it
raises some other exception. -/
inductive GenOutcome where
  | ok (text : Option String)
  | clientError (status : Option Nat) (msg : String)
  | otherError
deriving DecidableEq

/-- The 3-tuple `generate_with_fallback` returns. -/
structure GenResult where
  text : Option String
  model : Option String
  retry : Option Nat
deriving DecidableEq

/-- Result of a run together with the models invoked (in call order) and
the `time.sleep` durations performed. -/
structure GenTrace where
  result : GenResult
  calls : List String
  sleeps : List Nat
deriving DecidableEq

/-- `MODEL_CANDIDATES` (app.py lines 39-44). -/
def MODEL_CANDIDATES : List String :=
  ["gemini-2.5-flash", "gemini-2.0-flash-lite", "gemini-2.0-flash", "gemini-pro-latest"]

/-- The literal returned when a call succeeds but `.text` is falsy
(app.py line 210). -/
def emptyTextReply : String :=
  "ごめん、今うまく文章を作れなかった…もう一回送って！"

/-- Python truthiness of `text` at line 208: `None` and `""` are falsy. -/
def truthyText : Option String → Bool
  | some t => t != ""
  | none => false

/-- `status == 429 or "RESOURCE_EXHAUSTED" in msg` (app.py line 216). -/
def isRateLimit (status : Option Nat) (msg : String) : Bool :=
  status == some 429 || strContains msg "RESOURCE_EXHAUSTED"

/-- `max_wait_seconds and retry_sec and retry_sec <= max_wait_seconds`
(app.py line 221): Python truthiness makes `0` falsy in the first two
conjuncts. -/
def sleepCond (maxWait : Nat) (rs : Option Nat) : Bool :=
  (maxWait != 0) &&
    (match rs with
     | some d => (d != 0) && decide (d ≤ maxWait)
     | none => false)

/-- The `for model in MODEL_CANDIDATES` loop of `generate_with_fallback`,
over the remaining candidates, threading the `last_retry` variable.
Each iteration makes exactly one backend call (recorded in `calls`).
On a rate-limit error, `last_retry` is overwritten with the parse result
(possibly `none`), and in both the sleep branch and the plain branch the
`continue` statement advances the `for` loop to the NEXT candidate — the
two branches differ only in whether `time.sleep(retry_sec)` runs first,
so the `sleepCond` test below shows up only in the `sleeps` field.
Any other `ClientError`, and any other exception, `break`s out of the
loop, falling through to `return None, None, last_retry`. -/
def gwfGo (backend : String → GenOutcome) (maxWait : Nat) :
    List String → Option Nat → GenTrace
  | [], lastRetry => ⟨⟨none, none, lastRetry⟩, [], []⟩
  | model :: rest, lastRetry =>
    match backend model with
    | .ok text =>
      if truthyText text then ⟨⟨text, some model, none⟩, [model], []⟩
      else ⟨⟨some emptyTextReply, some model, none⟩, [model], []⟩
    | .clientError status msg =>
      if isRateLimit status msg then
        let retry_sec := _extract_retry_seconds msg
        let t := gwfGo backend maxWait rest retry_sec
        ⟨t.result, model :: t.calls,
          if sleepCond maxWait retry_sec then retry_sec.getD 0 :: t.sleeps
          else t.sleeps⟩
      else ⟨⟨none, none, lastRetry⟩, [model], []⟩
    | .otherError => ⟨⟨none, none, lastRetry⟩, [model], []⟩

/-- `generate_with_fallback(prompt, max_wait_seconds)`, with the backend
already applied to the prompt. -/
def generate_with_fallback (backend : String → GenOutcome)
    (max_wait_seconds : Nat) : GenTrace :=
  gwfGo backend max_wait_seconds MODEL_CANDIDATES none

/-- The parse attempt a given model's call contributes: `some r` when that
call raised a rate-limit error whose message parsed to `r : Option Nat`,
`none` when the call was not a rate-limit error. -/
def rlParse (backend : String → GenOutcome) (model : String) :
    Option (Option Nat) :=
  match backend model with
  | .clientError status msg =>
    if isRateLimit status msg then some (_extract_retry_seconds msg) else none
  | _ => none

/-- The parse result of the most recent rate-limit error in a call trace
(`none` when no rate-limit error occurred). -/
def lastRateLimitParse (backend : String → GenOutcome)
    (calls : List String) : Option (Option Nat) :=
  (calls.filterMap (rlParse backend)).getLast?

/-- The most recently successfully *parsed* retry delay in a call trace —
the reading the spec's words describe: rate-limit errors whose message
contained no recognizable delay are skipped. -/
def lastParsedDelay (backend : String → GenOutcome)
    (calls : List String) : Option Nat :=
  (calls.filterMap (fun m => (rlParse backend m).join)).getLast?

/-! ### The sqlite store (app.py lines 90-159)

`users` has `user_id TEXT PRIMARY KEY, created_at TEXT`; `daily_logs` has
an `AUTOINCREMENT` integer id (first value 1) plus the payload columns.
`daily_logs` declares `FOREIGN KEY(user_id) REFERENCES users(user_id)`,
but the code opens its connections with plain `sqlite3.connect` and never
issues `PRAGMA foreign_keys = ON`, so sqlite does not enforce the
constraint at runtime: an `INSERT` into `daily_logs` succeeds regardless
of whether the user row exists. The embedding reflects that runtime
behaviour. Rows are kept in insertion order; `ORDER BY id DESC` over rows
whose ids were assigned by the autoincrement counter is list reversal. -/

/-- A row of the `users` table. -/
structure UserRow where
  user_id : String
  created_at : String
deriving DecidableEq

/-- A row of the `daily_logs` table. -/
structure LogRow where
  id : Nat
  user_id : String
  log_date : String
  user_text : String
  ai_reply : String
  model_used : Option String
  created_at : String
deriving DecidableEq

/-- The database state: both tables plus the autoincrement counter for
`daily_logs.id`. -/
structure DB where
  users : List UserRow
  daily_logs : List LogRow
  next_log_id : Nat
deriving DecidableEq

/-- `init_db()` on a fresh file: both tables empty, first log id will
be 1. -/
def init_db : DB := ⟨[], [], 1⟩

/-- `upsert_user` (app.py lines 119-127): `INSERT OR IGNORE` — a no-op
when a row with this `user_id` already exists, else append the row with
the current timestamp. -/
def upsert_user (user_id now : String) (db : DB) : DB :=
  if db.users.any (fun u => u.user_id == user_id) then db
  else { db with users := db.users ++ [⟨user_id, now⟩] }

/-- `save_log` (app.py lines 129-137): unconditional `INSERT` into
`daily_logs` (no foreign-key check at runtime, see above). -/
def save_log (user_id log_date user_text ai_reply : String)
    (model_used : Option String) (now : String) (db : DB) : DB :=
  { db with
    daily_logs :=
      db.daily_logs ++
        [⟨db.next_log_id, user_id, log_date, user_text, ai_reply, model_used, now⟩],
    next_log_id := db.next_log_id + 1 }

/-- `get_recent_logs` (app.py lines 139-151):
`SELECT ... WHERE user_id=? ORDER BY id DESC LIMIT ?`. -/
def get_recent_logs (user_id : String) (limit : Nat) (db : DB) : List LogRow :=
  ((db.daily_logs.filter (fun r => r.user_id == user_id)).reverse).take limit

/-- `list_all_users` (app.py lines 153-159). -/
def list_all_users (db : DB) : List String :=
  db.users.map (·.user_id)

/-- Well-formed store: `daily_logs` ids strictly increase along the list,
which is exactly what the autoincrement counter produces. -/
def DBWf (db : DB) : Prop :=
  db.daily_logs.Pairwise (fun a b => a.id < b.id)

/-! ### Handler-level strings and intent classification -/

/-- Characters Python's `str.strip()` removes (the ones relevant here:
ASCII whitespace plus the ideographic space U+3000). -/
def pyIsSpace (c : Char) : Bool :=
  c == ' ' || c == '\t' || c == '\n' || c == '\r' ||
    c == Char.ofNat 11 || c == Char.ofNat 12 || c == Char.ofNat 0x3000

/-- `s.strip()`. -/
def pyStrip (s : String) : String :=
  ⟨((s.data.dropWhile pyIsSpace).reverse.dropWhile pyIsSpace).reverse⟩

/-- `PROFILE_QUERY_PHRASES` (app.py lines 52-57). -/
def PROFILE_QUERY_PHRASES : List String :=
  ["今の私はどんなですか", "今の私はどんな", "私ってどんな", "自分ってどんな"]

/-- `any(p in user_message for p in PROFILE_QUERY_PHRASES)`
(app.py line 315). -/
def profileHit (user_message : String) : Bool :=
  PROFILE_QUERY_PHRASES.any (fun p => strContains user_message p)

/-- The reply when the event has no usable sender id (app.py line 307). -/
def noUserIdReply : String :=
  "ユーザーIDが取得できなかったよ。1:1トークで試してね。"

/-- `f"{retry_sec}秒" if retry_sec else "しばらく"` (app.py lines 322 and
336): Python truthiness makes both `None` and `0` take the vague branch. -/
def waitPhrase (retry_sec : Option Nat) : String :=
  match retry_sec with
  | some d => if d != 0 then toString d ++ "秒" else "しばらく"
  | none => "しばらく"

/-- The profile-flow quota fallback reply (app.py line 323). -/
def profileFallback (retry_sec : Option Nat) : String :=
  "ごめん、今AIの回数制限に当たってる…" ++ waitPhrase retry_sec ++ "後にもう一回お願い！"

/-- The report-flow quota fallback reply (app.py lines 337-340). -/
def reportFallback (retry_sec : Option Nat) : String :=
  "ごめん、今AIの回数制限に当たってる…" ++ waitPhrase retry_sec ++
    "後にもう一回送って！\n（先にメモだけ残すね：そのまま続き送ってOK）"

/-! ### Prompt builders (app.py lines 239-281) -/

/-- `build_recent_text(rows)`: iterate `reversed(rows)` accumulating one
two-line block per entry. -/
def build_recent_text (rows : List LogRow) : String :=
  if rows.isEmpty then "(履歴なし)"
  else
    rows.reverse.foldl
      (fun txt r =>
        txt ++ "- [" ++ r.log_date ++ "] ユーザー: " ++ r.user_text ++
          "\n  AI: " ++ r.ai_reply ++ "\n")
      ""

/-- `build_daily_prompt(user_message, rows)`. -/
def build_daily_prompt (user_message : String) (rows : List LogRow) : String :=
  "あなたは優しく現実的な就活・学習サポーターです。\n" ++
    "ユーザーの本日の報告を受けて、次の行動が進むように短く具体的に返してください。\n" ++
    "要件:\n" ++
    "- 1〜3文で。\n" ++
    "- 可能なら“質問を1つ”入れて次の会話につなげる。\n" ++
    "- 説教はしない。\n\n" ++
    "直近の履歴:\n" ++
    build_recent_text rows ++ "\n\n" ++
    "本日のユーザー発言:\n" ++
    user_message ++ "\n"

/-- `build_profile_prompt(rows)`. -/
def build_profile_prompt (rows : List LogRow) : String :=
  "あなたはユーザーの成長を見守るコーチです。\n" ++
    "以下のログから、ユーザーの最近の状態を“人物像”として短くまとめてください。\n" ++
    "要件:\n" ++
    "- 日本語\n" ++
    "- 3〜5文\n" ++
    "- 1文目で性格/強み（例：向上心、継続力）\n" ++
    "- 2〜3文目で最近の忙しさ/課題\n" ++
    "- 最後に“優しい一言 + 次の一歩の提案”\n\n" ++
    "ログ:\n" ++
    (if rows.isEmpty then "(ログなし)"
     else
       rows.reverse.foldl
         (fun txt r => txt ++ "- [" ++ r.log_date ++ "] " ++ r.user_text ++ "\n")
         "") ++ "\n"

/-! ### `handle_message` (app.py lines 303-347) -/

/-- The inbound text event as the handler sees it:
`getattr(event.source, "user_id", None)` and `event.message.text`. -/
structure InEvent where
  user_id : Option String
  text : Option String
deriving DecidableEq

/-- What one run of the handler produces: the new store state and the
texts sent through `reply_text`, in order. -/
structure HandleResult where
  db : DB
  replies : List String
deriving DecidableEq

/-- `handle_message(event)`. `backend model prompt` is the outcome of
`client.models.generate_content(model=model, contents=prompt)`;
`now` is `datetime.now(JST).isoformat()` and `today` is
`datetime.now(JST).date().isoformat()` at handling time.
`if not user_id` treats both a missing id and an empty string as
unusable. Both gateway calls use the default `max_wait_seconds=0`. -/
def handle_message (backend : String → String → GenOutcome)
    (now today : String) (ev : InEvent) (db : DB) : HandleResult :=
  match ev.user_id with
  | none => ⟨db, [noUserIdReply]⟩
  | some uid =>
    if uid = "" then ⟨db, [noUserIdReply]⟩
    else
      let db1 := upsert_user uid now db
      let user_message := pyStrip (ev.text.getD "")
      if profileHit user_message then
        let logs := get_recent_logs uid 30 db1
        let prompt := build_profile_prompt logs
        let g := generate_with_fallback (fun m => backend m prompt) 0
        match g.result.text with
        | none => ⟨db1, [profileFallback g.result.retry]⟩
        | some t => ⟨db1, [t]⟩
      else
        let logs := get_recent_logs uid 10 db1
        let prompt := build_daily_prompt user_message logs
        let g := generate_with_fallback (fun m => backend m prompt) 0
        match g.result.text with
        | none =>
          let fallback := reportFallback g.result.retry
          ⟨save_log uid today user_message fallback none now db1, [fallback]⟩
        | some t =>
          ⟨save_log uid today user_message t g.result.model now db1, [t]⟩

/-- The gateway run the report flow performs for a given event and store
(the composition the handler's else-branch evaluates). -/
def dailyGen (backend : String → String → GenOutcome) (uid now : String)
    (ev : InEvent) (db : DB) : GenTrace :=
  generate_with_fallback
    (fun m =>
      backend m
        (build_daily_prompt (pyStrip (ev.text.getD ""))
          (get_recent_logs uid 10 (upsert_user uid now db))))
    0

/-- The gateway run the profile flow performs for a given user and store
(the profile prompt does not depend on the message text). -/
def profileGen (backend : String → String → GenOutcome) (uid now : String)
    (db : DB) : GenTrace :=
  generate_with_fallback
    (fun m =>
      backend m
        (build_profile_prompt (get_recent_logs uid 30 (upsert_user uid now db))))
    0

/-! ### Concrete backends, events and stores used in the closed theorems -/

/-- A backend on which every model call raises a non-quota exception. -/
def allOtherError : String → GenOutcome := fun _ => .otherError

/-- First candidate rate-limited with a parsable 36-second delay, every
later candidate rate-limited with an unparsable message. -/
def c1CexBackend : String → GenOutcome := fun m =>
  if m == "gemini-2.5-flash" then .clientError (some 429) "Please retry in 36s."
  else .clientError (some 429) "RESOURCE_EXHAUSTED"

/-- First candidate rate-limited with a parsable 3-second delay, second
candidate succeeding. -/
def c2Backend : String → GenOutcome := fun m =>
  if m == "gemini-2.5-flash" then .clientError (some 429) "Please retry in 3s."
  else if m == "gemini-2.0-flash-lite" then .ok (some "OK!")
  else .otherError

/-- Every model rate-limited with a parsed delay of 0 seconds. -/
def zeroDelayBackend : String → String → GenOutcome :=
  fun _ _ => .clientError (some 429) "retry in 0s"

/-- A backend whose every call succeeds with a fixed non-empty text. -/
def okBackend : String → String → GenOutcome :=
  fun _ _ => .ok (some "よく頑張ったね！明日は何をする？")

/-- A backend whose every call raises a non-quota exception, seen through
the handler's two-argument interface. -/
def failBackend : String → String → GenOutcome := fun _ _ => .otherError

/-- A report-intent event (its text contains no profile-query phrase). -/
def reportEvent : InEvent := ⟨some "U1", some "今日は企業研究をした"⟩

/-- A profile-intent event (its text contains 今の私はどんな). -/
def profileEvent : InEvent := ⟨some "U2", some "今の私はどんな感じ？"⟩

/-- The apostrophe character, U+0027. -/
def apos : Char := Char.ofNat 39

/-- The spec's first parser example message. -/
def c5Msg1 : String :=
  "You exceeded your current quota. Please retry in 38.507s."

/-- The spec's second parser example message, containing
`retryDelay': '36s'`. -/
def c5Msg2 : String :=
  "quota_metric " ++ String.singleton apos ++ "retryDelay" ++
    String.singleton apos ++ ": " ++ String.singleton apos ++ "36s" ++
    String.singleton apos

/-- A store holding 15 log entries for user `U1`, inserted one by one. -/
def fifteenDB : DB :=
  (List.range 15).foldl
    (fun d i =>
      save_log "U1" "2026-10-11" (toString (i + 1)) ("r" ++ toString (i + 1))
        none "ts" d)
    (upsert_user "U1" "ts0" init_db)

end LineBot

namespace LineBot

/-! ## Helper lemmas -/

/-- Pulling the head of a list through `getLast?.getD`. -/
theorem getLast?_getD_cons {α : Type} (x : α) (A : List α) :
    ∀ d : α, ((x :: A).getLast?).getD d = (A.getLast?).getD x := by
  induction A generalizing x with
  | nil => intro d; rfl
  | cons y B ih =>
    intro d
    rw [List.getLast?_cons_cons, ih y d, ih y x]

/-- `listContains` holds whenever the needle is a prefix of the
haystack. -/
theorem listContains_of_isPrefixOf :
    ∀ h n : List Char, n.isPrefixOf h = true → listContains h n = true
  | [], n, hp => by
    cases n with
    | nil => rfl
    | cons c t => simp [List.isPrefixOf] at hp
  | c :: t, n, hp => by simp [listContains, hp]

/-- A list contains any middle slice of itself. -/
theorem listContains_sandwich (n b : List Char) :
    ∀ a : List Char, listContains (a ++ (n ++ b)) n = true := by
  intro a
  induction a with
  | nil =>
    rw [List.nil_append]
    have hpp := List.isPrefixOf_iff_prefix.mpr (List.prefix_append n b)
    exact listContains_of_isPrefixOf (n ++ b) n hpp
  | cons c t ih =>
    simp [listContains, ih]

/-- A string contains any middle slice of itself. -/
theorem strContains_sandwich (a n b : String) :
    strContains (a ++ n ++ b) n = true := by
  have h : (a ++ n ++ b).data = a.data ++ (n.data ++ b.data) := by
    rw [String.data_append, String.data_append, List.append_assoc]
  rw [strContains, h]
  exact listContains_sandwich n.data b.data a.data

/-- `upsert_user` never touches `daily_logs`. -/
theorem upsert_user_daily_logs (uid now : String) (db : DB) :
    (upsert_user uid now db).daily_logs = db.daily_logs := by
  unfold upsert_user
  split <;> rfl

/-- `upsert_user` never touches the autoincrement counter. -/
theorem upsert_user_next_log_id (uid now : String) (db : DB) :
    (upsert_user uid now db).next_log_id = db.next_log_id := by
  unfold upsert_user
  split <;> rfl

/-- After `upsert_user uid`, `uid` is among the known user ids. -/
theorem mem_list_all_users_upsert (uid now : String) (db : DB) :
    uid ∈ list_all_users (upsert_user uid now db) := by
  unfold upsert_user list_all_users
  split
  · next h =>
    obtain ⟨u, hu, hbeq⟩ := List.any_eq_true.mp h
    exact List.mem_map.mpr ⟨u, hu, eq_of_beq hbeq⟩
  · next h =>
    simp

/-- The invariant of `gwfGo` in the exhausted case: if the loop ends with
no text, the model slot is `none` and the retry slot is the parse result
attached to the most recent rate-limit call of the trace, defaulting to
the inherited `last_retry`. -/
theorem gwfGo_text_none (B : String → GenOutcome) (mw : Nat) :
    ∀ (ms : List String) (lr : Option Nat),
      (gwfGo B mw ms lr).result.text = none →
      (gwfGo B mw ms lr).result.model = none ∧
      (gwfGo B mw ms lr).result.retry =
        (((gwfGo B mw ms lr).calls.filterMap (rlParse B)).getLast?).getD lr := by
  intro ms
  induction ms with
  | nil => intro lr _; exact ⟨rfl, rfl⟩
  | cons m rest ih =>
    intro lr h
    cases hB : B m with
    | ok text =>
      exfalso
      cases text with
      | none => simp [gwfGo, hB, truthyText] at h
      | some t =>
        cases htt : (t != "") <;> simp [gwfGo, hB, truthyText, htt] at h
    | clientError status msg =>
      cases hrl : isRateLimit status msg with
      | true =>
        have h' :
            (gwfGo B mw rest (_extract_retry_seconds msg)).result.text = none := by
          simpa [gwfGo, hB, hrl] using h
        obtain ⟨h1, h2⟩ := ih (_extract_retry_seconds msg) h'
        have hp : rlParse B m = some (_extract_retry_seconds msg) := by
          simp [rlParse, hB, hrl]
        refine ⟨by simpa [gwfGo, hB, hrl] using h1, ?_⟩
        simp only [gwfGo, hB, hrl, if_true]
        rw [List.filterMap_cons_some hp, getLast?_getD_cons]
        exact h2
      | false =>
        have hp : rlParse B m = none := by simp [rlParse, hB, hrl]
        refine ⟨by simp [gwfGo, hB, hrl], ?_⟩
        simp [gwfGo, hB, hrl, List.filterMap_cons_none hp]
    | otherError =>
      have hp : rlParse B m = none := by simp [rlParse, hB]
      exact ⟨by simp [gwfGo, hB], by simp [gwfGo, hB, List.filterMap_cons_none hp]⟩

/-- Shape of a handler run routed to the profile flow. -/
theorem handle_message_profile_eq (backend : String → String → GenOutcome)
    (now today : String) (ev : InEvent) (db : DB) (uid : String)
    (hid : ev.user_id = some uid) (hne : uid ≠ "")
    (hint : profileHit (pyStrip (ev.text.getD "")) = true) :
    handle_message backend now today ev db =
      match (profileGen backend uid now db).result.text with
      | none =>
        ⟨upsert_user uid now db,
          [profileFallback (profileGen backend uid now db).result.retry]⟩
      | some t => ⟨upsert_user uid now db, [t]⟩ := by
  simp only [handle_message, hid, profileGen]
  rw [if_neg hne]
  simp [hint]

/-- Shape of a handler run routed to the report flow. -/
theorem handle_message_report_eq (backend : String → String → GenOutcome)
    (now today : String) (ev : InEvent) (db : DB) (uid : String)
    (hid : ev.user_id = some uid) (hne : uid ≠ "")
    (hint : profileHit (pyStrip (ev.text.getD "")) = false) :
    handle_message backend now today ev db =
      match (dailyGen backend uid now ev db).result.text with
      | none =>
        ⟨save_log uid today (pyStrip (ev.text.getD ""))
            (reportFallback (dailyGen backend uid now ev db).result.retry) none now
            (upsert_user uid now db),
          [reportFallback (dailyGen backend uid now ev db).result.retry]⟩
      | some t =>
        ⟨save_log uid today (pyStrip (ev.text.getD "")) t
            (dailyGen backend uid now ev db).result.model now
            (upsert_user uid now db),
          [t]⟩ := by
  simp only [handle_message, hid, dailyGen]
  rw [if_neg hne]
  simp [hint]

/-! ## Claim theorems -/

/-- C1, counterexample: on a backend whose first candidate is
rate-limited with a parsable delay of 36 seconds and whose remaining
candidates are rate-limited with unparsable messages, the exhausted loop
returns a `none` third component even though the most recently *parsed*
retry delay is 36 — so the triple is not
`(null, null, lastParsedRetryDelayOrNull)` as the claim states it. -/
theorem c1_counterexample :
    (generate_with_fallback c1CexBackend 0).result = ⟨none, none, none⟩ ∧
    lastParsedDelay c1CexBackend (generate_with_fallback c1CexBackend 0).calls =
      some 36 ∧
    (generate_with_fallback c1CexBackend 0).result.retry ≠
      lastParsedDelay c1CexBackend (generate_with_fallback c1CexBackend 0).calls := by
  decide

/-- C1, amended: `generate_with_fallback` is a total function into
result triples (it never raises), and whenever it returns no text it
returns no model name and its third component is the parse result
attached to the most recent rate-limit error of the run — `none` both
when no rate-limit error occurred and when the most recent rate-limit
error's message contained no recognizable delay. -/
theorem c1_never_raises_null_triple (B : String → GenOutcome) (mw : Nat)
    (h : (generate_with_fallback B mw).result.text = none) :
    (generate_with_fallback B mw).result.model = none ∧
    (generate_with_fallback B mw).result.retry =
      (lastRateLimitParse B (generate_with_fallback B mw).calls).getD none := by
  have := gwfGo_text_none B mw MODEL_CANDIDATES none h
  exact ⟨this.1, this.2⟩

/-- C1, witness: a backend failing with a non-quota error on the first
candidate. -/
theorem c1_never_raises_null_triple_witness :
    (generate_with_fallback allOtherError 0).result.model = none ∧
    (generate_with_fallback allOtherError 0).result.retry =
      (lastRateLimitParse allOtherError
        (generate_with_fallback allOtherError 0).calls).getD none :=
  c1_never_raises_null_triple allOtherError 0 (by decide)

/-- C2: with `max_wait_seconds = 10` and a first candidate rate-limited
with parsed delay 3 ≤ 10, the code sleeps 3 seconds and then invokes the
NEXT candidate — the first candidate is called exactly once, so the
"retry the same candidate" the claim describes never happens (the
`continue` after `time.sleep` advances the `for` loop). -/
theorem c2_sleep_then_advances :
    generate_with_fallback c2Backend 10 =
      ⟨⟨some "OK!", some "gemini-2.0-flash-lite", none⟩,
        ["gemini-2.5-flash", "gemini-2.0-flash-lite"], [3]⟩ ∧
    (generate_with_fallback c2Backend 10).calls.count "gemini-2.5-flash" = 1 := by
  decide

/-- C3, counterexample: when every candidate is rate-limited with a
parsed delay of exactly 0 seconds, the delay is known (`some 0`) yet the
persisted and replied fallback string embeds no `0秒` — Python's
truthiness sends a zero delay down the vague-"しばらく" branch, contrary
to the claim's "embeds the parsed retry delay ... or 'shortly' when no
delay is known". -/
theorem c3_counterexample :
    (dailyGen zeroDelayBackend "U1" "now" reportEvent init_db).result.retry =
      some 0 ∧
    handle_message zeroDelayBackend "now" "2026-10-12" reportEvent init_db =
      ⟨⟨[⟨"U1", "now"⟩],
        [⟨1, "U1", "2026-10-12", "今日は企業研究をした", reportFallback (some 0),
          none, "now"⟩], 2⟩,
        [reportFallback (some 0)]⟩ ∧
    strContains (reportFallback (some 0)) "0秒" = false ∧
    strContains (reportFallback (some 0)) "しばらく" = true := by
  decide

/-- C3, amended: in the report flow, on null gateway text the handler
persists a log entry for today's date whose stored AI reply is the
deterministic fallback string and whose model name is null, then replies
with that same fallback; the fallback embeds the parsed retry delay when
it is known and nonzero, and the vague "しばらく" phrase when the delay
is unknown or zero; on gateway success it persists the entry with the
real reply text and the model name, then replies with that text. -/
theorem c3_report_flow_persistence (backend : String → String → GenOutcome)
    (now today : String) (ev : InEvent) (db : DB) (uid : String)
    (hid : ev.user_id = some uid) (hne : uid ≠ "")
    (hint : profileHit (pyStrip (ev.text.getD "")) = false) :
    ((dailyGen backend uid now ev db).result.text = none →
      handle_message backend now today ev db =
        ⟨save_log uid today (pyStrip (ev.text.getD ""))
            (reportFallback (dailyGen backend uid now ev db).result.retry) none now
            (upsert_user uid now db),
          [reportFallback (dailyGen backend uid now ev db).result.retry]⟩) ∧
    (∀ t, (dailyGen backend uid now ev db).result.text = some t →
      handle_message backend now today ev db =
        ⟨save_log uid today (pyStrip (ev.text.getD "")) t
            (dailyGen backend uid now ev db).result.model now
            (upsert_user uid now db),
          [t]⟩) ∧
    (∀ d : Nat, d ≠ 0 →
      strContains (reportFallback (some d)) (toString d ++ "秒") = true) ∧
    strContains (reportFallback none) "しばらく" = true ∧
    strContains (reportFallback (some 0)) "しばらく" = true := by
  refine ⟨?_, ?_, ?_, by decide, by decide⟩
  · intro hg
    rw [handle_message_report_eq backend now today ev db uid hid hne hint, hg]
  · intro t hg
    rw [handle_message_report_eq backend now today ev db uid hid hne hint, hg]
  · intro d hd
    have hb : (d != 0) = true := by simpa using hd
    have hw : waitPhrase (some d) = toString d ++ "秒" := by
      simp [waitPhrase, hb]
    rw [reportFallback, hw]
    exact strContains_sandwich _ _ _

/-- C3, witness: a succeeding backend on a report-intent event. -/
theorem c3_report_flow_persistence_witness :
    ((dailyGen okBackend "U1" "now" reportEvent init_db).result.text = none →
      handle_message okBackend "now" "2026-10-12" reportEvent init_db =
        ⟨save_log "U1" "2026-10-12" (pyStrip (reportEvent.text.getD ""))
            (reportFallback (dailyGen okBackend "U1" "now" reportEvent init_db).result.retry)
            none "now" (upsert_user "U1" "now" init_db),
          [reportFallback (dailyGen okBackend "U1" "now" reportEvent init_db).result.retry]⟩) ∧
    (∀ t, (dailyGen okBackend "U1" "now" reportEvent init_db).result.text = some t →
      handle_message okBackend "now" "2026-10-12" reportEvent init_db =
        ⟨save_log "U1" "2026-10-12" (pyStrip (reportEvent.text.getD "")) t
            (dailyGen okBackend "U1" "now" reportEvent init_db).result.model "now"
            (upsert_user "U1" "now" init_db),
          [t]⟩) ∧
    (∀ d : Nat, d ≠ 0 →
      strContains (reportFallback (some d)) (toString d ++ "秒") = true) ∧
    strContains (reportFallback none) "しばらく" = true ∧
    strContains (reportFallback (some 0)) "しばらく" = true :=
  c3_report_flow_persistence okBackend "now" "2026-10-12" reportEvent init_db "U1"
    rfl (by decide) (by decide)

/-- C4: whenever the first candidate's call succeeds with non-empty
text, the gateway returns that text, the first candidate's name and a
null retry delay, and the trace shows exactly one backend call. -/
theorem c4_first_success_short_circuits (B : String → GenOutcome) (mw : Nat)
    (t : String) (hB : B "gemini-2.5-flash" = .ok (some t)) (ht : t ≠ "") :
    generate_with_fallback B mw =
      ⟨⟨some t, some "gemini-2.5-flash", none⟩, ["gemini-2.5-flash"], []⟩ := by
  have htt : truthyText (some t) = true := by simpa [truthyText] using ht
  simp [generate_with_fallback, MODEL_CANDIDATES, gwfGo, hB, htt]

/-- C4, witness. -/
theorem c4_first_success_short_circuits_witness :
    generate_with_fallback (fun m => if m == "gemini-2.5-flash"
        then .ok (some "こんにちは") else .otherError) 7 =
      ⟨⟨some "こんにちは", some "gemini-2.5-flash", none⟩, ["gemini-2.5-flash"], []⟩ :=
  c4_first_success_short_circuits
    (fun m => if m == "gemini-2.5-flash" then .ok (some "こんにちは") else .otherError)
    7 "こんにちは" (by decide) (by decide)

/-- C5: the retry parser yields 38 on the spec's "Please retry in
38.507s." message (flooring the fraction), 36 on the "retryDelay': '36s'"
message, and null on any message where neither pattern matches. -/
theorem c5_retry_seconds :
    _extract_retry_seconds c5Msg1 = some 38 ∧
    _extract_retry_seconds c5Msg2 = some 36 ∧
    ∀ msg : String, searchWith matchRetryInAt msg.data = none →
      searchWith matchRetryDelayAt msg.data = none →
      _extract_retry_seconds msg = none := by
  refine ⟨by decide, by decide, ?_⟩
  intro msg h1 h2
  simp [_extract_retry_seconds, h1, h2]

/-- C5, witness: a message matching neither pattern parses to null. -/
theorem c5_retry_seconds_witness :
    _extract_retry_seconds "Internal server error" = none :=
  c5_retry_seconds.2.2 "Internal server error" (by decide) (by decide)

/-- C6: an event routed to the profile flow leaves `daily_logs`
untouched, whatever the gateway does. -/
theorem c6_profile_flow_no_persistence (backend : String → String → GenOutcome)
    (now today : String) (ev : InEvent) (db : DB) (uid : String)
    (hid : ev.user_id = some uid) (hne : uid ≠ "")
    (hint : profileHit (pyStrip (ev.text.getD "")) = true) :
    (handle_message backend now today ev db).db.daily_logs = db.daily_logs := by
  rw [handle_message_profile_eq backend now today ev db uid hid hne hint]
  cases hg : (profileGen backend uid now db).result.text with
  | none => simp [upsert_user_daily_logs]
  | some t => simp [upsert_user_daily_logs]

/-- C6, witness: a profile query against a failing gateway. -/
theorem c6_profile_flow_no_persistence_witness :
    (handle_message failBackend "now" "2026-10-12" profileEvent init_db).db.daily_logs =
      init_db.daily_logs :=
  c6_profile_flow_no_persistence failBackend "now" "2026-10-12" profileEvent init_db
    "U2" rfl (by decide) (by decide)

/-- C7: `get_recent_logs` returns at most `limit` rows, all owned by the
queried user, in strictly descending id order (newest first) on any
well-formed store, the empty list when the user has no rows, and on a
store holding 15 entries for `U1` a limit-10 query returns exactly the
ids 15 down to 6. -/
theorem c7_recent_logs (uid : String) (limit : Nat) (db : DB) (hwf : DBWf db) :
    (get_recent_logs uid limit db).length ≤ limit ∧
    (∀ e ∈ get_recent_logs uid limit db, e.user_id = uid) ∧
    ((get_recent_logs uid limit db).map (·.id)).Pairwise (· > ·) ∧
    (db.daily_logs.filter (fun r => r.user_id == uid) = [] →
      get_recent_logs uid limit db = []) ∧
    ((get_recent_logs "U1" 10 fifteenDB).map (·.id)) =
      [15, 14, 13, 12, 11, 10, 9, 8, 7, 6] := by
  refine ⟨?_, ?_, ?_, ?_, by decide⟩
  · exact List.length_take_le limit _
  · intro e he
    have h1 : e ∈ (db.daily_logs.filter (fun r => r.user_id == uid)).reverse :=
      List.mem_of_mem_take he
    have h2 : e ∈ db.daily_logs.filter (fun r => r.user_id == uid) :=
      List.mem_reverse.mp h1
    have hb : (e.user_id == uid) = true := (List.mem_filter.mp h2).2
    exact eq_of_beq hb
  · have p1 : (db.daily_logs.filter (fun r => r.user_id == uid)).Pairwise
        (fun a b => a.id < b.id) := hwf.filter _
    have p2 : ((db.daily_logs.filter
        (fun r => r.user_id == uid)).reverse).Pairwise
        (fun a b => b.id < a.id) := List.pairwise_reverse.mpr p1
    have p3 : (get_recent_logs uid limit db).Pairwise (fun a b => b.id < a.id) :=
      p2.sublist (List.take_sublist _ _)
    exact List.pairwise_map.mpr p3
  · intro h
    simp [get_recent_logs, h]

/-- C7, witness: the 15-entry store. -/
theorem c7_recent_logs_witness :
    (get_recent_logs "U1" 10 fifteenDB).length ≤ 10 ∧
    (∀ e ∈ get_recent_logs "U1" 10 fifteenDB, e.user_id = "U1") ∧
    ((get_recent_logs "U1" 10 fifteenDB).map (·.id)).Pairwise (· > ·) ∧
    (fifteenDB.daily_logs.filter (fun r => r.user_id == "U1") = [] →
      get_recent_logs "U1" 10 fifteenDB = []) ∧
    ((get_recent_logs "U1" 10 fifteenDB).map (·.id)) =
      [15, 14, 13, 12, 11, 10, 9, 8, 7, 6] :=
  c7_recent_logs "U1" 10 fifteenDB (by unfold DBWf; decide)

/-- C8: `save_log` with a user id that exists nowhere in `users`
succeeds and silently inserts the orphaned row — the declared foreign key
is never enforced because no connection enables it — instead of failing
as the claim requires. -/
theorem c8_orphan_insert_succeeds :
    (save_log "Ughost" "2026-10-12" "今日の報告" "返信" none "ts" init_db).daily_logs =
      [⟨1, "Ughost", "2026-10-12", "今日の報告", "返信", none, "ts"⟩] ∧
    (save_log "Ughost" "2026-10-12" "今日の報告" "返信" none "ts" init_db).users = [] := by
  decide

/-- C9: `upsert_user` is idempotent — the second call with the same id
is a no-op, and starting from a store not containing the id, the two
calls leave exactly one row for it, carrying the first call's creation
timestamp. -/
theorem c9_upsert_idempotent (uid t1 t2 : String) (db : DB) :
    upsert_user uid t2 (upsert_user uid t1 db) = upsert_user uid t1 db ∧
    (db.users.any (fun u => u.user_id == uid) = false →
      (upsert_user uid t2 (upsert_user uid t1 db)).users.filter
        (fun u => u.user_id == uid) = [⟨uid, t1⟩]) := by
  have hsecond : upsert_user uid t2 (upsert_user uid t1 db) = upsert_user uid t1 db := by
    cases h : db.users.any (fun u => u.user_id == uid) with
    | false => simp [upsert_user, h, List.any_append]
    | true => simp [upsert_user, h]
  refine ⟨hsecond, ?_⟩
  intro h
  rw [hsecond]
  have hfil : db.users.filter (fun u => u.user_id == uid) = [] := by
    rw [List.filter_eq_nil_iff]
    intro a ha hbeq
    exact (List.any_eq_false.mp h a ha) hbeq
  simp [upsert_user, h, List.filter_append, hfil]

/-- C9, witness. -/
theorem c9_upsert_idempotent_witness :
    upsert_user "U1" "t2" (upsert_user "U1" "t1" init_db) =
      upsert_user "U1" "t1" init_db ∧
    (init_db.users.any (fun u => u.user_id == "U1") = false →
      (upsert_user "U1" "t2" (upsert_user "U1" "t1" init_db)).users.filter
        (fun u => u.user_id == "U1") = [⟨"U1", "t1"⟩]) :=
  c9_upsert_idempotent "U1" "t1" "t2" init_db

/-- C10: for every event with a usable sender id, the resulting users
table is exactly what `upsert_user` produces (no other part of the
handler touches it), the sender is among the known user ids afterwards
(hence a nightly-push recipient), and every log row the handler added
belongs to that sender. -/
theorem c10_user_ensured_first (backend : String → String → GenOutcome)
    (now today : String) (ev : InEvent) (db : DB) (uid : String)
    (hid : ev.user_id = some uid) (hne : uid ≠ "") :
    (handle_message backend now today ev db).db.users =
      (upsert_user uid now db).users ∧
    uid ∈ list_all_users (handle_message backend now today ev db).db ∧
    ∀ e ∈ (handle_message backend now today ev db).db.daily_logs,
      e ∉ db.daily_logs → e.user_id = uid := by
  have husers : (handle_message backend now today ev db).db.users =
      (upsert_user uid now db).users ∧
      ∀ e ∈ (handle_message backend now today ev db).db.daily_logs,
        e ∉ db.daily_logs → e.user_id = uid := by
    cases hint : profileHit (pyStrip (ev.text.getD "")) with
    | true =>
      rw [handle_message_profile_eq backend now today ev db uid hid hne hint]
      cases hg : (profileGen backend uid now db).result.text with
      | none =>
        refine ⟨rfl, ?_⟩
        intro e he hnot
        rw [upsert_user_daily_logs] at he
        exact absurd he hnot
      | some t =>
        refine ⟨rfl, ?_⟩
        intro e he hnot
        rw [upsert_user_daily_logs] at he
        exact absurd he hnot
    | false =>
      rw [handle_message_report_eq backend now today ev db uid hid hne hint]
      cases hg : (dailyGen backend uid now ev db).result.text with
      | none =>
        refine ⟨rfl, ?_⟩
        intro e he hnot
        simp only [save_log, upsert_user_daily_logs] at he
        rcases List.mem_append.mp he with h' | h'
        · exact absurd h' hnot
        · simp only [List.mem_singleton] at h'
          rw [h']
      | some t =>
        refine ⟨rfl, ?_⟩
        intro e he hnot
        simp only [save_log, upsert_user_daily_logs] at he
        rcases List.mem_append.mp he with h' | h'
        · exact absurd h' hnot
        · simp only [List.mem_singleton] at h'
          rw [h']
  refine ⟨husers.1, ?_, husers.2⟩
  have : list_all_users (handle_message backend now today ev db).db =
      list_all_users (upsert_user uid now db) := by
    unfold list_all_users
    rw [husers.1]
  rw [this]
  exact mem_list_all_users_upsert uid now db

/-- C10, witness: a profile query from a previously unseen user. -/
theorem c10_user_ensured_first_witness :
    (handle_message failBackend "now" "2026-10-12" profileEvent init_db).db.users =
      (upsert_user "U2" "now" init_db).users ∧
    "U2" ∈ list_all_users
      (handle_message failBackend "now" "2026-10-12" profileEvent init_db).db ∧
    ∀ e ∈ (handle_message failBackend "now" "2026-10-12" profileEvent
        init_db).db.daily_logs,
      e ∉ init_db.daily_logs → e.user_id = "U2" :=
  c10_user_ensured_first failBackend "now" "2026-10-12" profileEvent init_db "U2"
    rfl (by decide)

end LineBot
